import Mathlib

/-!
# Verification of the anti-detection / rate-governed session layer

Shallow embedding of the core of the `mls-scrapper` repository
(`src/utils/global-setup.ts` and `src/utils/browser-utils.ts`), together
with proofs about the embedded definitions.

Modelling conventions, shared by all definitions below:

* Time is measured in natural-number milliseconds.  `Date.now()` values and
  `setTimeout` durations become `ℕ`.
* `Math.random()` draws are modelled by explicit parameters: a single draw
  used as `Math.floor(Math.random() * k)` becomes `r % k` for an arbitrary
  `r : ℕ` (as `r` ranges over `ℕ`, `r % k` ranges over exactly the values
  `0, …, k-1` the source expression can produce).  Code that draws several
  times takes a stream `rand : ℕ → ℕ` consumed at an explicit cursor.
* Asynchronous suspension (`await new Promise(setTimeout …)`) is modelled by
  arithmetic on return times (for the rate limiter) or by an accumulated
  `waited` field (for the behaviour simulator); the synchronous parts of a
  call are treated as instantaneous.
* A JavaScript `throw` / rejected promise is an `Except.error`.
-/

/-- `randomDelay(min, max)` from `src/utils/browser-utils.ts` (lines 163-166):
`Math.floor(Math.random() * (max - min + 1)) + min`, i.e. a delay drawn
uniformly from `[min, max]`.  The random draw is the explicit argument
`rand`; the produced delay is the returned duration. -/
def randomDelay (mn mx rand : ℕ) : ℕ :=
  rand % (mx - mn + 1) + mn

theorem randomDelay_lower (mn mx rand : ℕ) : mn ≤ randomDelay mn mx rand :=
  Nat.le_add_left mn _

theorem randomDelay_upper (mn mx rand : ℕ) (h : mn ≤ mx) :
    randomDelay mn mx rand ≤ mx := by
  have hm : rand % (mx - mn + 1) < mx - mn + 1 := Nat.mod_lt _ (Nat.succ_pos _)
  unfold randomDelay
  omega

/-! ## RateLimiter (`src/utils/global-setup.ts`, lines 190-222)

The class state is `lastRequestTime` and `requestCount`; the constants are
`resetInterval = 60000` and `maxRequests = 30`. -/

/-- The mutable fields of the `RateLimiter` class: `lastRequestTime` and
`requestCount`. -/
structure RLState where
  last : ℕ
  count : ℕ
deriving DecidableEq

/-- Lines 200-203 of `waitIfNeeded`: `if (now - this.lastRequestTime >
this.resetInterval) { this.requestCount = 0; }`.  Note that only the counter
is written here; `lastRequestTime` is untouched by this step. -/
def resetIfExpired (s : RLState) (now : ℕ) : RLState :=
  if 60000 < now - s.last then ⟨s.last, 0⟩ else s

/-- `RateLimiter.waitIfNeeded` (lines 197-221).  Arguments: the current
state, the time `now` at which the call starts (`Date.now()`), and the
random draw used by the inline `randomDelay`.  Returns the state after the
call together with the time at which the call returns control.

Step by step, following the source:
1. reset the counter if more than `resetInterval` elapsed since the last
   request (`resetIfExpired`);
2. if `requestCount >= maxRequests`, suspend for
   `resetInterval - (now - lastRequestTime)` and zero the counter;
3. if `now - lastRequestTime < 2000`, suspend for
   `randomDelay(2000 - timeSinceLastRequest, 4000)`;
4. set `lastRequestTime` to the current (post-suspension) `Date.now()` and
   increment the counter. -/
def waitIfNeeded (s : RLState) (now rand : ℕ) : RLState × ℕ :=
  let s1 := resetIfExpired s now
  let afterLimit : ℕ × ℕ :=
    if 30 ≤ s1.count then (now + (60000 - (now - s.last)), 0) else (now, s1.count)
  let timeSince := now - s.last
  let ret :=
    if timeSince < 2000 then afterLimit.1 + randomDelay (2000 - timeSince) 4000 rand
    else afterLimit.1
  (⟨ret, afterLimit.2 + 1⟩, ret)

theorem waitIfNeeded_last_eq_ret (s : RLState) (now rand : ℕ) :
    (waitIfNeeded s now rand).1.last = (waitIfNeeded s now rand).2 := rfl

/-- Every call returns at least 2000 time-units after the previous request's
completion time: the spacing branch enforces it for close arrivals, and the
other branches return no earlier than `now`. -/
theorem waitIfNeeded_ret_lower (s : RLState) (now rand : ℕ) (h : s.last ≤ now) :
    s.last + 2000 ≤ (waitIfNeeded s now rand).2 := by
  have hd : 2000 - (now - s.last) ≤ randomDelay (2000 - (now - s.last)) 4000 rand :=
    randomDelay_lower _ _ _
  by_cases h1 : 60000 < now - s.last
  · have h3 : ¬ (now - s.last < 2000) := by omega
    simp only [waitIfNeeded, resetIfExpired, if_pos h1, if_neg h3]
    simp only [show ¬ (30 ≤ (RLState.mk s.last 0).count) from by simp, if_neg,
      not_false_eq_true]
    omega
  · simp only [waitIfNeeded, resetIfExpired, if_neg h1]
    by_cases h2 : 30 ≤ s.count
    · simp only [if_pos h2]
      by_cases h3 : now - s.last < 2000
      · simp only [if_pos h3]; omega
      · simp only [if_neg h3]; omega
    · simp only [if_neg h2]
      by_cases h3 : now - s.last < 2000
      · simp only [if_pos h3]; omega
      · simp only [if_neg h3]; omega

/-- One logical flow issuing calls back to back: a list of
`(arrival time, random draw)` pairs, where each call may start no earlier
than the completion of the previous one (the previous completion time is
recorded in `last` by `waitIfNeeded` itself). -/
def validCalls (s : RLState) : List (ℕ × ℕ) → Bool
  | [] => true
  | (now, r) :: rest =>
    decide (s.last ≤ now) && validCalls (waitIfNeeded s now r).1 rest

/-- The list of completion (return) times produced by a sequence of
`waitIfNeeded` calls. -/
def returnTimes (s : RLState) : List (ℕ × ℕ) → List ℕ
  | [] => []
  | (now, r) :: rest =>
    (waitIfNeeded s now r).2 :: returnTimes (waitIfNeeded s now r).1 rest

/-- `gapped lo l` : every element of `l` is at least `lo + 2000`, and
consecutive elements are at least 2000 apart. -/
def gapped : ℕ → List ℕ → Prop
  | _, [] => True
  | lo, x :: xs => lo + 2000 ≤ x ∧ gapped x xs

theorem returnTimes_gapped (calls : List (ℕ × ℕ)) :
    ∀ s : RLState, validCalls s calls = true → gapped s.last (returnTimes s calls) := by
  induction calls with
  | nil => intro s _; trivial
  | cons c rest ih =>
    intro s hv
    obtain ⟨now, r⟩ := c
    simp only [validCalls, Bool.and_eq_true, decide_eq_true_eq] at hv
    refine ⟨waitIfNeeded_ret_lower s now r hv.1, ?_⟩
    have := ih (waitIfNeeded s now r).1 hv.2
    rwa [waitIfNeeded_last_eq_ret] at this

/-- In a gapped list, the number of elements below `hi` is strictly bounded:
`n` of them force `hi` to exceed `lo` by more than `n * 2000`. -/
theorem gapped_count_below (l : List ℕ) :
    ∀ lo hi : ℕ, gapped lo l →
      (l.filter (fun t => decide (t < hi))).length * 2000 < hi - lo ∨
      (l.filter (fun t => decide (t < hi))).length = 0 := by
  induction l with
  | nil => intro lo hi _; right; rfl
  | cons x xs ih =>
    intro lo hi hg
    obtain ⟨hx, hxs⟩ := hg
    by_cases hlt : x < hi
    · rw [List.filter_cons, if_pos (by simpa using hlt)]
      simp only [List.length_cons]
      left
      rcases ih x hi hxs with h | h <;> omega
    · rw [List.filter_cons, if_neg (by simpa using hlt)]
      rcases ih x hi hxs with h | h
      · left; omega
      · right; omega

/-- Filtering with a stronger predicate yields no more elements. -/
theorem filter_length_mono (l : List ℕ) (p q : ℕ → Bool)
    (h : ∀ x, p x = true → q x = true) :
    (l.filter p).length ≤ (l.filter q).length := by
  induction l with
  | nil => exact Nat.le_refl _
  | cons x xs ih =>
    by_cases hp : p x = true
    · rw [List.filter_cons, if_pos hp, List.filter_cons, if_pos (h x hp)]
      simp only [List.length_cons]
      omega
    · rw [List.filter_cons, if_neg hp]
      by_cases hq : q x = true
      · rw [List.filter_cons, if_pos hq]
        simp only [List.length_cons]
        omega
      · rw [List.filter_cons, if_neg hq]
        exact ih

/-- Any window `[T, T + 60000)` contains at most 30 elements of a gapped
list. -/
theorem gapped_window_bound (l : List ℕ) :
    ∀ lo T : ℕ, gapped lo l →
      (l.filter (fun t => decide (T ≤ t) && decide (t < T + 60000))).length ≤ 30 := by
  induction l with
  | nil => intro lo T _; simp
  | cons x xs ih =>
    intro lo T hg
    obtain ⟨hx, hxs⟩ := hg
    by_cases hin : (decide (T ≤ x) && decide (x < T + 60000)) = true
    · rw [List.filter_cons, if_pos hin]
      simp only [List.length_cons]
      simp only [Bool.and_eq_true, decide_eq_true_eq] at hin
      have hmono :
          (xs.filter (fun t => decide (T ≤ t) && decide (t < T + 60000))).length ≤
          (xs.filter (fun t => decide (t < T + 60000))).length := by
        refine filter_length_mono xs _ _ ?_
        intro t ht
        simp only [Bool.and_eq_true, decide_eq_true_eq] at ht
        simpa using ht.2
      rcases gapped_count_below xs x (T + 60000) hxs with hcnt | hcnt <;> omega
    · rw [List.filter_cons, if_neg hin]
      exact ih x T hxs

/-- C1: For every sequence of `waitIfNeeded()` calls (defaults
`maxRequests = 30`, `interval = 60000`), the number of calls that return
within any rolling 60,000-time-unit window `[T, T + 60000)` never exceeds
30.  The sequence is an arbitrary list of arrival times and random draws in
which each call starts no earlier than the previous call's completion
(`validCalls`). -/
theorem rateLimiter_rolling_window_bound (s : RLState) (calls : List (ℕ × ℕ))
    (hv : validCalls s calls = true) (T : ℕ) :
    ((returnTimes s calls).filter
      (fun t => decide (T ≤ t) && decide (t < T + 60000))).length ≤ 30 :=
  gapped_window_bound (returnTimes s calls) s.last T (returnTimes_gapped calls s hv)

/-- Witness for C1: a concrete two-call sequence. -/
theorem rateLimiter_rolling_window_bound_witness :
    validCalls ⟨0, 0⟩ [(0, 0), (2500, 0)] = true ∧
    ((returnTimes ⟨0, 0⟩ [(0, 0), (2500, 0)]).filter
      (fun t => decide (0 ≤ t) && decide (t < 0 + 60000))).length ≤ 30 :=
  ⟨by decide, rateLimiter_rolling_window_bound ⟨0, 0⟩ [(0, 0), (2500, 0)] (by decide) 0⟩

/-- C5 counterexample: claim says the expired-window reset also sets the
window-start timestamp to `now` before the limit and spacing checks.  On
state `⟨last := 0, count := 5⟩` at `now = 70000` the reset branch fires,
yet the stored timestamp stays `0` (not `70000`); observably, the call then
returns at `70000` with no minimum-spacing suspension, which would be
impossible had the timestamp been set to `now` before the spacing check. -/
theorem resetIfExpired_keeps_timestamp_cex :
    resetIfExpired ⟨0, 5⟩ 70000 = ⟨0, 0⟩ ∧
    (resetIfExpired ⟨0, 5⟩ 70000).last ≠ 70000 ∧
    (waitIfNeeded ⟨0, 5⟩ 70000 0).2 = 70000 := by
  refine ⟨by decide, by decide, by decide⟩

/-- C5 (amended): when more than `resetInterval = 60000` time-units have
passed since the last request, the reset step zeroes the request count but
leaves the stored timestamp unchanged; the timestamp is only updated at the
end of the call, when it is set to the completion time, and the call
returns at `now` with no suspension. -/
theorem resetIfExpired_resets_count_only (s : RLState) (now rand : ℕ)
    (hgap : 60000 < now - s.last) :
    resetIfExpired s now = ⟨s.last, 0⟩ ∧
    (waitIfNeeded s now rand).2 = now ∧
    (waitIfNeeded s now rand).1 = ⟨now, 1⟩ := by
  have h3 : ¬ (now - s.last < 2000) := by omega
  refine ⟨by rw [resetIfExpired, if_pos hgap], ?_, ?_⟩ <;>
    simp only [waitIfNeeded, resetIfExpired, if_pos hgap,
      show ¬ (30 ≤ (RLState.mk s.last 0).count) from by simp, if_neg,
      not_false_eq_true, if_neg h3]

/-- Witness for C5's amended theorem. -/
theorem resetIfExpired_resets_count_only_witness :
    60000 < 70000 - (RLState.mk 0 5).last ∧
    (resetIfExpired ⟨0, 5⟩ 70000 = ⟨0, 0⟩ ∧
      (waitIfNeeded ⟨0, 5⟩ 70000 0).2 = 70000 ∧
      (waitIfNeeded ⟨0, 5⟩ 70000 0).1 = ⟨70000, 1⟩) :=
  ⟨by decide, resetIfExpired_resets_count_only ⟨0, 5⟩ 70000 0 (by decide)⟩

/-- C6 counterexample: claim says the spacing suspension is drawn from
`[floor − elapsed, floor − elapsed + 2000]`.  With `elapsed = 1000` that
interval is `[1000, 3000]`, so the call should return no later than
`now + 3000 = 14000`; but the source draws from
`randomDelay(2000 - elapsed, 4000)`, whose upper end is the fixed 4000:
with draw 3000 the call returns at `15000 > 14000`. -/
theorem waitIfNeeded_jitter_upper_cex :
    (waitIfNeeded ⟨10000, 1⟩ 11000 3000).2 = 15000 ∧
    11000 + (2000 - (11000 - 10000)) + 2000 < 15000 := by
  refine ⟨by decide, by decide⟩

/-- C6 (amended): when the count is below the limit and the elapsed time
since the previous request is under the 2000-time-unit spacing floor, the
call suspends for a random duration drawn from `[2000 − elapsed, 4000]`
(the upper end is the fixed 4000, not `4000 − elapsed`). -/
theorem waitIfNeeded_spacing_jitter (s : RLState) (now rand : ℕ)
    (hclose : now - s.last < 2000) (hcount : s.count < 30) :
    now + (2000 - (now - s.last)) ≤ (waitIfNeeded s now rand).2 ∧
    (waitIfNeeded s now rand).2 ≤ now + 4000 := by
  have h1 : ¬ (60000 < now - s.last) := by omega
  have h2 : ¬ (30 ≤ s.count) := by omega
  have hlo : 2000 - (now - s.last) ≤ randomDelay (2000 - (now - s.last)) 4000 rand :=
    randomDelay_lower _ _ _
  have hhi : randomDelay (2000 - (now - s.last)) 4000 rand ≤ 4000 :=
    randomDelay_upper _ _ _ (by omega)
  simp only [waitIfNeeded, resetIfExpired, if_neg h1, if_neg h2, if_pos hclose]
  omega

/-- Witness for C6's amended theorem. -/
theorem waitIfNeeded_spacing_jitter_witness :
    11000 - (RLState.mk 10000 1).last < 2000 ∧ (RLState.mk 10000 1).count < 30 ∧
    (11000 + (2000 - (11000 - 10000)) ≤ (waitIfNeeded ⟨10000, 1⟩ 11000 3000).2 ∧
      (waitIfNeeded ⟨10000, 1⟩ 11000 3000).2 ≤ 11000 + 4000) :=
  ⟨by decide, by decide, waitIfNeeded_spacing_jitter ⟨10000, 1⟩ 11000 3000 (by decide) (by decide)⟩

/-! ## Response monitoring (`src/utils/global-setup.ts`, lines 284-309)

`setupRequestMonitoring` installs a `page.on('response', …)` handler with a
closure-scoped `blockedRequests` counter.  The handler body is embedded as
`observe`; `runMonitor` replays the handler over a stream of responses,
stopping at the first thrown `Error` (the throw escapes the handler and
aborts the run). -/

/-- JS `String.prototype.includes` on character lists: does `needle` occur
as a contiguous substring of the haystack? -/
def includesChars (needle : List Char) : List Char → Bool
  | [] => needle.isEmpty
  | c :: rest => needle.isPrefixOf (c :: rest) || includesChars needle rest

/-- `url.includes(pat)` from the source. -/
def includes (s pat : String) : Bool :=
  includesChars pat.data s.data

/-- Line 301: `url.includes('/blocked') || url.includes('/denied')`. -/
def isBlockedUrl (url : String) : Bool :=
  includes url "/blocked" || includes url "/denied"

/-- The handler's closure state: the `blockedRequests` counter. -/
structure MonitorState where
  blockedRequests : ℕ
deriving DecidableEq

/-- A network response, as observed by the handler: `response.status()` and
`response.url()`. -/
structure HttpResponse where
  status : ℕ
  url : String
deriving DecidableEq

/-- One invocation of the response handler (lines 287-308) on one response.
Returns the new closure state, the suspension imposed inline (the
`randomDelay(30000, 60000)` on a 429; `0` otherwise — the 401/403 branch
only logs a warning), and whether the handler threw
`Error('Automation detected and blocked')`.  Each of the three `if`
statements of the source is evaluated independently, in order. -/
def observe (s : MonitorState) (resp : HttpResponse) (rand : ℕ) :
    MonitorState × ℕ × Bool :=
  let delay := if resp.status = 429 then randomDelay 30000 60000 rand else 0
  let blocked :=
    if isBlockedUrl resp.url then s.blockedRequests + 1 else s.blockedRequests
  let raised := isBlockedUrl resp.url && decide (3 < blocked)
  (⟨blocked⟩, delay, raised)

theorem observe_state (b : ℕ) (resp : HttpResponse) (rand : ℕ) :
    (observe ⟨b⟩ resp rand).1 =
      ⟨if isBlockedUrl resp.url then b + 1 else b⟩ := rfl

theorem observe_raised (b : ℕ) (resp : HttpResponse) (rand : ℕ) :
    (observe ⟨b⟩ resp rand).2.2 =
      (isBlockedUrl resp.url && decide (3 < b + 1)) := by
  by_cases hb : isBlockedUrl resp.url = true <;>
    simp [observe, hb]

/-- Replay the handler over a list of responses within one session.  Result:
`some i` if the handler throws while processing the `i`-th response (the
throw aborts the run, so later responses are not observed), `none` if the
whole stream is processed without a throw. -/
def runMonitor (s : MonitorState) (rand : ℕ → ℕ) :
    List HttpResponse → Option ℕ
  | [] => none
  | r :: rest =>
    let step := observe s r (rand 0)
    if step.2.2 then some 0
    else (runMonitor step.1 (fun n => rand (n + 1)) rest).map (· + 1)

/-- Number of responses in a stream whose URL matches the block-page
pattern. -/
def cntBlocked (rs : List HttpResponse) : ℕ :=
  (rs.filter (fun r => isBlockedUrl r.url)).length

theorem cntBlocked_cons (r : HttpResponse) (rs : List HttpResponse) :
    cntBlocked (r :: rs) =
      (if isBlockedUrl r.url then 1 else 0) + cntBlocked rs := by
  by_cases hb : isBlockedUrl r.url = true
  · simp [cntBlocked, List.filter_cons, hb]
    omega
  · simp only [Bool.not_eq_true] at hb
    simp [cntBlocked, List.filter_cons, hb]

/-- The monitor throws on a stream iff the stream contains at least one
block-pattern response and the initial counter plus the number of matches
reaches 4. -/
theorem runMonitor_raises_iff (rs : List HttpResponse) :
    ∀ (b : ℕ) (rand : ℕ → ℕ),
      (runMonitor ⟨b⟩ rand rs).isSome = true ↔
        (1 ≤ cntBlocked rs ∧ 4 ≤ b + cntBlocked rs) := by
  induction rs with
  | nil =>
    intro b rand
    simp [runMonitor, cntBlocked]
  | cons r rest ih =>
    intro b rand
    rw [runMonitor]
    simp only [observe_raised, observe_state, cntBlocked_cons]
    by_cases hb : isBlockedUrl r.url = true
    · by_cases h4 : 3 < b + 1
      · simp only [hb, if_pos, if_true, Bool.true_and, decide_eq_true h4,
          Option.isSome_some, true_iff]
        omega
      · simp only [hb, if_pos, if_true, Bool.true_and, decide_eq_false h4,
          Bool.false_eq_true, if_false, Option.isSome_map']
        rw [ih (b + 1) (fun n => rand (n + 1))]
        omega
      -- distinguish raise/no-raise on the head
    · simp only [Bool.not_eq_true] at hb
      simp only [hb, Bool.false_and, Bool.false_eq_true, if_false,
        Option.isSome_map']
      rw [ih b (fun n => rand (n + 1))]
      omega

/-- When the monitor throws while processing the `i`-th response, that
response matches the block pattern and — starting from a counter that has
not yet passed the threshold — the matches seen up to and including it
bring the counter to exactly 4. -/
theorem runMonitor_raise_position (rs : List HttpResponse) :
    ∀ (b : ℕ) (rand : ℕ → ℕ) (i : ℕ),
      runMonitor ⟨b⟩ rand rs = some i →
      i < rs.length ∧
      isBlockedUrl ((rs.getD i ⟨0, ""⟩).url) = true ∧
      3 < b + cntBlocked (rs.take (i + 1)) ∧
      (b ≤ 3 → b + cntBlocked (rs.take (i + 1)) = 4) := by
  induction rs with
  | nil =>
    intro b rand i h
    simp [runMonitor] at h
  | cons r rest ih =>
    intro b rand i h
    rw [runMonitor] at h
    simp only [observe_raised, observe_state] at h
    by_cases hb : isBlockedUrl r.url = true
    · by_cases h4 : 3 < b + 1
      · rw [if_pos (by simp [hb, h4])] at h
        obtain rfl : (0 : ℕ) = i := Option.some_inj.mp h
        have hc : cntBlocked (List.take (0 + 1) (r :: rest)) = 1 := by
          simp [cntBlocked, List.filter_cons, hb]
        refine ⟨by simp, by simpa using hb, by omega, by omega⟩
      · rw [if_neg (by simp [h4]), if_pos hb] at h
        obtain ⟨i', hi', rfl⟩ := Option.map_eq_some'.mp h
        obtain ⟨hlen, hurl, hgt, heq⟩ := ih (b + 1) (fun n => rand (n + 1)) i' hi'
        have hc : cntBlocked (List.take (i' + 1 + 1) (r :: rest)) =
            cntBlocked (List.take (i' + 1) rest) + 1 := by
          rw [List.take_succ_cons, cntBlocked_cons, hb, if_pos rfl]
          omega
        refine ⟨by simpa using hlen, by simpa using hurl, by omega, ?_⟩
        intro hb3
        have := heq (by omega)
        omega
    · simp only [Bool.not_eq_true] at hb
      rw [if_neg (by simp [hb]), if_neg (by simp [hb])] at h
      obtain ⟨i', hi', rfl⟩ := Option.map_eq_some'.mp h
      obtain ⟨hlen, hurl, hgt, heq⟩ := ih b (fun n => rand (n + 1)) i' hi'
      have hc : cntBlocked (List.take (i' + 1 + 1) (r :: rest)) =
          cntBlocked (List.take (i' + 1) rest) := by
        rw [List.take_succ_cons, cntBlocked_cons, hb, if_neg (by simp)]
        omega
      refine ⟨by simpa using hlen, by simpa using hurl, by omega, ?_⟩
      intro hb3
      have := heq hb3
      omega

/-- C2: within one session (counter starts at 0), the monitor raises the
fatal `AutomationBlocked` throw exactly when the number of block-pattern
responses exceeds 3: with at most 3 matches it never raises, with more it
raises, and the raise happens while processing the 4th matching
response. -/
theorem monitor_blocked_threshold (rand : ℕ → ℕ) (rs : List HttpResponse) :
    (cntBlocked rs ≤ 3 → runMonitor ⟨0⟩ rand rs = none) ∧
    (3 < cntBlocked rs → (runMonitor ⟨0⟩ rand rs).isSome = true) ∧
    (∀ i, runMonitor ⟨0⟩ rand rs = some i →
      isBlockedUrl ((rs.getD i ⟨0, ""⟩).url) = true ∧
      cntBlocked (rs.take (i + 1)) = 4) := by
  refine ⟨?_, ?_, ?_⟩
  · intro hle
    cases hres : runMonitor ⟨0⟩ rand rs with
    | none => rfl
    | some i =>
      have : (runMonitor ⟨0⟩ rand rs).isSome = true := by simp [hres]
      rw [runMonitor_raises_iff rs 0 rand] at this
      omega
  · intro hgt
    rw [runMonitor_raises_iff rs 0 rand]
    omega
  · intro i hres
    obtain ⟨_, hurl, _, heq⟩ := runMonitor_raise_position rs 0 rand i hres
    exact ⟨hurl, by simpa using heq (by omega)⟩

/-- Witness for C2: a stream with four block-pattern responses; the monitor
raises on the fourth. -/
theorem monitor_blocked_threshold_witness :
    3 < cntBlocked
        [⟨200, "a/blocked"⟩, ⟨200, "b/denied"⟩, ⟨200, "c/blocked"⟩, ⟨200, "d/blocked"⟩] ∧
    (runMonitor ⟨0⟩ (fun _ => 0)
        [⟨200, "a/blocked"⟩, ⟨200, "b/denied"⟩, ⟨200, "c/blocked"⟩, ⟨200, "d/blocked"⟩]).isSome
      = true ∧
    cntBlocked
        ([(⟨200, "a/blocked"⟩ : HttpResponse), ⟨200, "b/denied"⟩, ⟨200, "c/blocked"⟩,
          ⟨200, "d/blocked"⟩].take (3 + 1)) = 4 :=
  ⟨by decide,
   (monitor_blocked_threshold (fun _ => 0) _).2.1 (by decide),
   ((monitor_blocked_threshold (fun _ => 0) _).2.2 3 (by decide)).2⟩

/-- C3: processing a response with status 429 suspends inline for a
cooldown in `[30000, 60000]` before returning control; for any other
status the 429 branch imposes no suspension. -/
theorem monitor_429_cooldown (s : MonitorState) (resp : HttpResponse) (rand : ℕ) :
    (resp.status = 429 →
      30000 ≤ (observe s resp rand).2.1 ∧ (observe s resp rand).2.1 ≤ 60000) ∧
    (resp.status ≠ 429 → (observe s resp rand).2.1 = 0) := by
  constructor
  · intro h429
    simp only [observe, h429, if_pos]
    exact ⟨randomDelay_lower _ _ _, randomDelay_upper _ _ _ (by omega)⟩
  · intro hother
    simp [observe, hother]

/-- Witness for C3: a 429 response suspends for 30000 with draw 0; a 200
response imposes no suspension. -/
theorem monitor_429_cooldown_witness :
    (30000 ≤ (observe ⟨0⟩ ⟨429, "https://a"⟩ 0).2.1 ∧
      (observe ⟨0⟩ ⟨429, "https://a"⟩ 0).2.1 ≤ 60000) ∧
    (observe ⟨0⟩ ⟨200, "https://a"⟩ 0).2.1 = 0 :=
  ⟨(monitor_429_cooldown ⟨0⟩ ⟨429, "https://a"⟩ 0).1 rfl,
   (monitor_429_cooldown ⟨0⟩ ⟨200, "https://a"⟩ 0).2 (by decide)⟩

/-- C7 counterexample: the claim predicts first-match-wins classification,
so a 429 response whose URL contains "/blocked" would only trigger the
cooldown and leave the blocked-request counter untouched.  In the source
the three `if`s are independent: on such a response the counter is
incremented (1, not 0) *and* the cooldown fires. -/
theorem monitor_first_match_cex :
    (observe ⟨0⟩ ⟨429, "https://example.com/blocked"⟩ 0).1.blockedRequests ≠ 0 ∧
    30000 ≤ (observe ⟨0⟩ ⟨429, "https://example.com/blocked"⟩ 0).2.1 := by
  refine ⟨by decide, by decide⟩

/-- C7 (amended): response classification is not first-match-wins; the
three rules are evaluated independently, and every matching rule's effect
occurs.  In particular a status-429 response whose URL matches the block
pattern both suspends for the `[30000, 60000]` cooldown and increments the
blocked-request counter. -/
theorem monitor_rules_independent (s : MonitorState) (url : String) (rand : ℕ)
    (h : isBlockedUrl url = true) :
    (observe s ⟨429, url⟩ rand).1.blockedRequests = s.blockedRequests + 1 ∧
    30000 ≤ (observe s ⟨429, url⟩ rand).2.1 ∧
    (observe s ⟨429, url⟩ rand).2.1 ≤ 60000 := by
  refine ⟨by simp [observe, h], ?_, ?_⟩
  · simpa [observe] using randomDelay_lower 30000 60000 rand
  · simpa [observe] using randomDelay_upper 30000 60000 rand (by omega)

/-- Witness for C7's amended theorem. -/
theorem monitor_rules_independent_witness :
    isBlockedUrl "https://example.com/blocked" = true ∧
    ((observe ⟨2⟩ ⟨429, "https://example.com/blocked"⟩ 7).1.blockedRequests = 2 + 1 ∧
      30000 ≤ (observe ⟨2⟩ ⟨429, "https://example.com/blocked"⟩ 7).2.1 ∧
      (observe ⟨2⟩ ⟨429, "https://example.com/blocked"⟩ 7).2.1 ≤ 60000) :=
  ⟨by decide, monitor_rules_independent ⟨2⟩ "https://example.com/blocked" 7 (by decide)⟩

/-! ## Session persistence (`src/utils/global-setup.ts`, lines 175-185)

`loadSession` wraps its body in `try { … } catch { console.warn } return
null`.  The filesystem is a partial map from paths to file contents
(`fs.existsSync` = membership, `fs.readFileSync` = lookup), and
`JSON.parse` is a partial parse function whose failure is a thrown
exception. -/

/-- The `try` body of `loadSession`: if the file exists, read it and
`JSON.parse` the contents (a parse failure throws); if it does not exist,
fall through (to the `return null`). -/
def loadSessionBody {α : Type} (fileSys : String → Option String)
    (parse : String → Option α) (sessionPath : String) :
    Except String (Option α) :=
  match fileSys sessionPath with
  | some contents =>
    match parse contents with
    | some v => Except.ok (some v)
    | none => Except.error "Unexpected token in JSON"
  | none => Except.ok none

/-- `loadSession(sessionPath)`: the body with every thrown exception caught
and turned into the `return null` fallthrough. -/
def loadSession {α : Type} (fileSys : String → Option String)
    (parse : String → Option α) (sessionPath : String) : Option α :=
  match loadSessionBody fileSys parse sessionPath with
  | Except.ok v => v
  | Except.error _ => none

/-- C8: `loadSession` never raises (it is total into `Option`, every
exception of the body being caught), returns `none` when the file is
missing or its contents fail to parse, and returns the parsed state exactly
when the file exists and parses — i.e. it equals `(fileSys path).bind
parse`. -/
theorem loadSession_total_spec {α : Type} (fileSys : String → Option String)
    (parse : String → Option α) (sessionPath : String) :
    loadSession fileSys parse sessionPath = (fileSys sessionPath).bind parse := by
  cases hf : fileSys sessionPath with
  | none => simp [loadSession, loadSessionBody, hf]
  | some contents =>
    cases hp : parse contents with
    | none => simp [loadSession, loadSessionBody, hf, hp]
    | some v => simp [loadSession, loadSessionBody, hf, hp]

/-! ## Fingerprint property getters (`src/utils/global-setup.ts`, lines 128-148)

`setupRealisticFingerprint` installs `Object.defineProperty` getters whose
bodies call `Math.random()`.  A getter is therefore a function of the read
index `i`: reading the property the `i`-th time consumes the `i`-th draw of
the session's random stream. -/

/-- Lines 146-148: `get: () => [2, 4, 8, 16][Math.floor(Math.random() * 4)]`,
evaluated at the `i`-th read of `navigator.hardwareConcurrency`. -/
def hardwareConcurrencyRead (rand : ℕ → ℕ) (i : ℕ) : ℕ :=
  [2, 4, 8, 16].getD (rand i % 4) 0

/-- Lines 129-131: `get: () => screen.width - Math.floor(Math.random() * 10)`,
evaluated at the `i`-th read of `screen.availWidth`. -/
def availWidthRead (screenWidth : ℕ) (rand : ℕ → ℕ) (i : ℕ) : ℕ :=
  screenWidth - rand i % 10

/-- Lines 133-135: `get: () => screen.height - Math.floor(Math.random() * 40) - 40`,
evaluated at the `i`-th read of `screen.availHeight`. -/
def availHeightRead (screenHeight : ℕ) (rand : ℕ → ℕ) (i : ℕ) : ℕ :=
  screenHeight - rand i % 40 - 40

/-- C9 counterexample: the claim says repeated reads of an overridden
property within one session always return the same value.  The getter
re-invokes `Math.random()` on every read: with a stream whose draws are
`0, 1, 2, …`, the first two reads of `navigator.hardwareConcurrency`
return 2 and 4. -/
theorem hardwareConcurrencyRead_varies_cex :
    hardwareConcurrencyRead (fun n => n) 0 = 2 ∧
    hardwareConcurrencyRead (fun n => n) 1 = 4 ∧
    hardwareConcurrencyRead (fun n => n) 0 ≠ hardwareConcurrencyRead (fun n => n) 1 := by
  refine ⟨by decide, by decide, by decide⟩

/-- C9 (amended): the fingerprint overrides are installed once per session,
but every read of an overridden property re-draws randomness, so repeated
reads may differ; what is fixed for the session's lifetime is the range:
each `hardwareConcurrency` read is drawn from {2, 4, 8, 16}, and each
`availWidth` read lies within 9 units below the true screen width. -/
theorem fingerprint_reads_range (rand : ℕ → ℕ) (i screenWidth : ℕ) :
    (hardwareConcurrencyRead rand i = 2 ∨ hardwareConcurrencyRead rand i = 4 ∨
      hardwareConcurrencyRead rand i = 8 ∨ hardwareConcurrencyRead rand i = 16) ∧
    availWidthRead screenWidth rand i ≤ screenWidth ∧
    screenWidth ≤ availWidthRead screenWidth rand i + 9 := by
  refine ⟨?_, ?_, ?_⟩
  · have h4 : rand i % 4 < 4 := Nat.mod_lt _ (by omega)
    unfold hardwareConcurrencyRead
    interval_cases h : rand i % 4 <;> simp
  · exact Nat.sub_le _ _
  · have h10 : rand i % 10 < 10 := Nat.mod_lt _ (by omega)
    unfold availWidthRead
    omega

/-! ## Behaviour simulation (`src/utils/global-setup.ts`, lines 56-95 and
314-338)

The Playwright page is modelled by an environment: the viewport (`null`
when absent), the session's random stream, and an optional action index
`closedAt` from which every page interaction (`mouse.move`, `mouse.wheel`,
`mouse.click`, `keyboard.press`) rejects with the closed-page error — the
page/context has been closed from that point on.  The running state counts
page actions performed, total time waited, and the random-draw cursor.
Waypoint coordinates (floating-point scalings of the viewport, e.g.
`Math.floor(Math.random() * viewport.width * 0.8) + viewport.width * 0.1`)
are kept as the raw random draws that produce them: the properties proved
here are independent of coordinate values, and each coordinate still
consumes its draw as in the source.  None of the three functions contains
a `try`/`catch`, so a rejected action is propagated by `await`. -/

/-- The closed-page rejection message. -/
def closedMsg : String := "Target page, context or browser has been closed"

/-- A Playwright page as seen by the behaviour simulator. -/
structure PageEnv where
  viewport : Option (ℕ × ℕ)
  closedAt : Option ℕ
  rand : ℕ → ℕ

/-- Running state: page actions performed, accumulated waiting time, and
the random-stream cursor. -/
structure PageSt where
  acts : ℕ
  waited : ℕ
  rnd : ℕ
deriving DecidableEq

/-- One `Math.random()` draw. -/
def draw (env : PageEnv) (st : PageSt) : ℕ × PageSt :=
  (env.rand st.rnd, { st with rnd := st.rnd + 1 })

/-- One awaited page interaction (`mouse.move` / `mouse.wheel` /
`mouse.click` / `keyboard.press`): rejects if the page has been closed. -/
def pageAct (env : PageEnv) (st : PageSt) : Except String PageSt :=
  match env.closedAt with
  | some c =>
    if c ≤ st.acts then Except.error closedMsg
    else Except.ok { st with acts := st.acts + 1 }
  | none => Except.ok { st with acts := st.acts + 1 }

/-- An awaited `randomDelay(min, max)`: draws once and waits. -/
def randomDelayAct (mn mx : ℕ) (env : PageEnv) (st : PageSt) : PageSt :=
  let (r, st1) := draw env st
  { st1 with waited := st1.waited + randomDelay mn mx r }

/-- Lines 64-69: generate `n` random waypoints, two draws each. -/
def genPoints (env : PageEnv) : ℕ → PageSt → List (ℕ × ℕ) × PageSt
  | 0, st => ([], st)
  | n + 1, st =>
    let (x, st1) := draw env st
    let (y, st2) := draw env st1
    let (ps, st3) := genPoints env n st2
    ((x, y) :: ps, st3)

/-- Lines 72-75: move through the points; each iteration draws the step
count (`10 + Math.floor(Math.random() * 10)`), awaits `mouse.move`, then
awaits `randomDelay(100, 300)`. -/
def movePoints (env : PageEnv) : List (ℕ × ℕ) → PageSt → Except String PageSt
  | [], st => Except.ok st
  | _ :: ps, st =>
    let (_, st1) := draw env st
    match pageAct env st1 with
    | Except.error e => Except.error e
    | Except.ok st2 => movePoints env ps (randomDelayAct 100 300 env st2)

/-- `simulateMouseMovement` (lines 56-76): return immediately on a null
viewport; otherwise draw `numPoints = 3 + Math.floor(Math.random() * 3)`,
generate the waypoints, and move through them. -/
def simulateMouseMovement (env : PageEnv) (st : PageSt) : Except String PageSt :=
  match env.viewport with
  | none => Except.ok st
  | some _ =>
    let (r, st1) := draw env st
    let (points, st2) := genPoints env (3 + r % 3) st1
    movePoints env points st2

/-- Lines 84-94: one scroll burst per iteration — draw the amount
(`100 + Math.floor(Math.random() * 300)`), await `mouse.wheel`, await
`randomDelay(500, 1500)`; then with probability 0.3 (`Math.random() > 0.7`,
modelled as `7 ≤ r % 10`) await a corrective `mouse.wheel` up and
`randomDelay(300, 800)`. -/
def scrollIter (env : PageEnv) : ℕ → PageSt → Except String PageSt
  | 0, st => Except.ok st
  | n + 1, st =>
    let (_, st1) := draw env st
    match pageAct env st1 with
    | Except.error e => Except.error e
    | Except.ok st2 =>
      let st3 := randomDelayAct 500 1500 env st2
      let (r, st4) := draw env st3
      if 7 ≤ r % 10 then
        match pageAct env st4 with
        | Except.error e => Except.error e
        | Except.ok st5 => scrollIter env n (randomDelayAct 300 800 env st5)
      else scrollIter env n st4

/-- `humanScroll` (lines 81-95): `scrolls = 2 + Math.floor(Math.random() * 3)`
bursts. -/
def humanScroll (env : PageEnv) (st : PageSt) : Except String PageSt :=
  let (r, st1) := draw env st
  scrollIter env (2 + r % 3) st1

/-- The fifth entry of the `actions` array of `simulateRealisticBehavior`
(lines 320-328): click at a random viewport position, or do nothing when
the viewport is null. -/
def randomClick (env : PageEnv) (st : PageSt) : Except String PageSt :=
  match env.viewport with
  | none => Except.ok st
  | some _ =>
    let (_, st1) := draw env st
    let (_, st2) := draw env st1
    pageAct env st2

/-- The `actions` array (lines 315-329), indexed by the draw
`Math.floor(Math.random() * actions.length)`: mouse movement, scrolling,
Tab key, Escape key, random click. -/
def runAction (env : PageEnv) (choice : ℕ) (st : PageSt) : Except String PageSt :=
  match choice with
  | 0 => simulateMouseMovement env st
  | 1 => humanScroll env st
  | 2 => pageAct env st
  | 3 => pageAct env st
  | _ => randomClick env st

/-- Lines 333-337: perform the chosen action, then await
`randomDelay(500, 2000)`. -/
def actionIter (env : PageEnv) : ℕ → PageSt → Except String PageSt
  | 0, st => Except.ok st
  | n + 1, st =>
    let (r, st1) := draw env st
    match runAction env (r % 5) st1 with
    | Except.error e => Except.error e
    | Except.ok st2 => actionIter env n (randomDelayAct 500 2000 env st2)

/-- `simulateRealisticBehavior` (lines 314-338): perform
`1 + Math.floor(Math.random() * 3)` random actions. -/
def simulateRealisticBehavior (env : PageEnv) (st : PageSt) : Except String PageSt :=
  let (r, st1) := draw env st
  actionIter env (1 + r % 3) st1

theorem pageAct_closed (env : PageEnv) (st : PageSt) (c : ℕ)
    (hc : env.closedAt = some c) (hk : c ≤ st.acts) :
    pageAct env st = Except.error closedMsg := by
  simp [pageAct, hc, hk]

theorem genPoints_acts (env : PageEnv) :
    ∀ (n : ℕ) (st : PageSt), ((genPoints env n st).2).acts = st.acts := by
  intro n
  induction n with
  | zero => intro st; rfl
  | succ n ih =>
    intro st
    simp only [genPoints, draw]
    rw [ih]

theorem movePoints_closed (env : PageEnv) (p : ℕ × ℕ) (ps : List (ℕ × ℕ))
    (st : PageSt) (c : ℕ) (hc : env.closedAt = some c) (hk : c ≤ st.acts) :
    movePoints env (p :: ps) st = Except.error closedMsg := by
  have h := pageAct_closed env { st with rnd := st.rnd + 1 } c hc hk
  simp only [movePoints, draw, h]

theorem simulateMouseMovement_closed (env : PageEnv) (st : PageSt)
    (vp : ℕ × ℕ) (c : ℕ) (hv : env.viewport = some vp)
    (hc : env.closedAt = some c) (hk : c ≤ st.acts) :
    simulateMouseMovement env st = Except.error closedMsg := by
  unfold simulateMouseMovement
  rw [hv]
  simp only [draw]
  have h3 : 3 + env.rand st.rnd % 3 = (2 + env.rand st.rnd % 3) + 1 := by omega
  rw [h3, genPoints]
  simp only [draw]
  refine movePoints_closed env _ _ _ c hc ?_
  rw [genPoints_acts]
  exact hk

theorem scrollIter_closed (env : PageEnv) (n : ℕ) (st : PageSt) (c : ℕ)
    (hc : env.closedAt = some c) (hk : c ≤ st.acts) :
    scrollIter env (n + 1) st = Except.error closedMsg := by
  have h := pageAct_closed env { st with rnd := st.rnd + 1 } c hc hk
  simp only [scrollIter, draw, h]

theorem humanScroll_closed (env : PageEnv) (st : PageSt) (c : ℕ)
    (hc : env.closedAt = some c) (hk : c ≤ st.acts) :
    humanScroll env st = Except.error closedMsg := by
  unfold humanScroll
  simp only [draw]
  have h2 : 2 + env.rand st.rnd % 3 = (1 + env.rand st.rnd % 3) + 1 := by omega
  rw [h2]
  exact scrollIter_closed env _ _ c hc hk

theorem randomClick_closed (env : PageEnv) (st : PageSt)
    (vp : ℕ × ℕ) (c : ℕ) (hv : env.viewport = some vp)
    (hc : env.closedAt = some c) (hk : c ≤ st.acts) :
    randomClick env st = Except.error closedMsg := by
  unfold randomClick
  rw [hv]
  simp only [draw]
  exact pageAct_closed env _ c hc hk

theorem runAction_closed (env : PageEnv) (choice : ℕ) (st : PageSt)
    (vp : ℕ × ℕ) (c : ℕ) (hv : env.viewport = some vp)
    (hc : env.closedAt = some c) (hk : c ≤ st.acts) :
    runAction env choice st = Except.error closedMsg := by
  rcases choice with _ | _ | _ | _ | n
  · exact simulateMouseMovement_closed env st vp c hv hc hk
  · exact humanScroll_closed env st c hc hk
  · exact pageAct_closed env st c hc hk
  · exact pageAct_closed env st c hc hk
  · exact randomClick_closed env st vp c hv hc hk

theorem actionIter_closed (env : PageEnv) (n : ℕ) (st : PageSt)
    (vp : ℕ × ℕ) (c : ℕ) (hv : env.viewport = some vp)
    (hc : env.closedAt = some c) (hk : c ≤ st.acts) :
    actionIter env (n + 1) st = Except.error closedMsg := by
  have h := runAction_closed env (env.rand st.rnd % 5) { st with rnd := st.rnd + 1 }
    vp c hv hc hk
  simp only [actionIter, draw, h]

theorem simulateRealisticBehavior_closed (env : PageEnv) (st : PageSt)
    (vp : ℕ × ℕ) (c : ℕ) (hv : env.viewport = some vp)
    (hc : env.closedAt = some c) (hk : c ≤ st.acts) :
    simulateRealisticBehavior env st = Except.error closedMsg := by
  unfold simulateRealisticBehavior
  simp only [draw]
  have h1 : 1 + env.rand st.rnd % 3 = (env.rand st.rnd % 3) + 1 := by omega
  rw [h1]
  exact actionIter_closed env _ _ vp c hv hc hk

/-- C4 counterexample: the claim says all three behaviour-simulation
operations swallow a mid-execution closed-session failure and never raise.
On a page with a viewport that is closed from the start (every page
interaction rejects), each of the three propagates the rejection to the
caller instead of swallowing it — none of them contains a
`try`/`catch`. -/
theorem behaviorSim_raises_cex :
    simulateMouseMovement ⟨some (1280, 720), some 0, fun _ => 0⟩ ⟨0, 0, 0⟩ =
      Except.error closedMsg ∧
    humanScroll ⟨some (1280, 720), some 0, fun _ => 0⟩ ⟨0, 0, 0⟩ =
      Except.error closedMsg ∧
    simulateRealisticBehavior ⟨some (1280, 720), some 0, fun _ => 0⟩ ⟨0, 0, 0⟩ =
      Except.error closedMsg := by
  refine ⟨rfl, rfl, rfl⟩

/-- C4 (amended): when the session/context closes mid-execution so that an
individual action fails, each of the three behaviour-simulation operations
propagates the failure to the caller (there is no `try`/`catch`; only
`startMouseJiggler` swallows such errors).  Stated for a page whose
interactions fail from the current point on and a present viewport. -/
theorem behaviorSim_failure_propagates (env : PageEnv) (st : PageSt)
    (vp : ℕ × ℕ) (k : ℕ) (hv : env.viewport = some vp)
    (hc : env.closedAt = some k) (hk : k ≤ st.acts) :
    simulateMouseMovement env st = Except.error closedMsg ∧
    humanScroll env st = Except.error closedMsg ∧
    simulateRealisticBehavior env st = Except.error closedMsg :=
  ⟨simulateMouseMovement_closed env st vp k hv hc hk,
   humanScroll_closed env st k hc hk,
   simulateRealisticBehavior_closed env st vp k hv hc hk⟩

/-- Witness for C4's amended theorem. -/
theorem behaviorSim_failure_propagates_witness :
    (PageEnv.mk (some (800, 600)) (some 2) (fun n => n)).viewport = some (800, 600) ∧
    (PageEnv.mk (some (800, 600)) (some 2) (fun n => n)).closedAt = some 2 ∧
    2 ≤ (PageSt.mk 5 0 0).acts ∧
    (simulateMouseMovement ⟨some (800, 600), some 2, fun n => n⟩ ⟨5, 0, 0⟩ =
        Except.error closedMsg ∧
      humanScroll ⟨some (800, 600), some 2, fun n => n⟩ ⟨5, 0, 0⟩ =
        Except.error closedMsg ∧
      simulateRealisticBehavior ⟨some (800, 600), some 2, fun n => n⟩ ⟨5, 0, 0⟩ =
        Except.error closedMsg) :=
  ⟨rfl, rfl, by decide,
   behaviorSim_failure_propagates ⟨some (800, 600), some 2, fun n => n⟩ ⟨5, 0, 0⟩
     (800, 600) 2 rfl rfl (by decide)⟩

/-- C10: when the page has no viewport (`viewportSize()` returns `null`),
`simulateMouseMovement` returns immediately as a no-op — no pointer
movement, no delay, no random draw, no error — and the random-click action
of `simulateRealisticBehavior` likewise performs no click: both return the
state unchanged. -/
theorem viewportNull_noop (env : PageEnv) (st : PageSt)
    (h : env.viewport = none) :
    simulateMouseMovement env st = Except.ok st ∧
    randomClick env st = Except.ok st := by
  constructor
  · unfold simulateMouseMovement
    rw [h]
  · unfold randomClick
    rw [h]

/-- Witness for C10. -/
theorem viewportNull_noop_witness :
    (PageEnv.mk none (some 0) (fun n => n)).viewport = none ∧
    (simulateMouseMovement ⟨none, some 0, fun n => n⟩ ⟨3, 7, 11⟩ =
        Except.ok ⟨3, 7, 11⟩ ∧
      randomClick ⟨none, some 0, fun n => n⟩ ⟨3, 7, 11⟩ = Except.ok ⟨3, 7, 11⟩) :=
  ⟨rfl, viewportNull_noop ⟨none, some 0, fun n => n⟩ ⟨3, 7, 11⟩ rfl⟩
